import Mathlib

/-!
Shallow embedding of the `adb_bridge` Home Assistant integration
(`custom_components/adb_bridge/coordinator.py` and `button.py`).

The coordinator owns at most one ADB session (`self._device`), a cached
last-known WiFi endpoint (`self._last_wifi_ip`, `self._last_wifi_port`),
and exposes Refresh (`_async_update_data`), EnableWirelessAdb
(`async_enable_wifi_adb`), RunCommand (`async_run_command`),
InstallPackage (`async_install_apk`) and Disconnect (`async_disconnect`).

Modelling choices, each traceable to the source:
* Device-side behaviour is an oracle `Env`: every fallible call the
  Python code makes (`device.connect`, `device.shell`, `device._service`,
  `device.push`, raw socket `connect_ex`) is a field of `Env`; `none`
  models the call raising an exception, `some r` models it returning `r`.
* The held device is `Option Bool`: `some b` is a device object whose
  `available` attribute is `b`; `none` is `self._device is None`.
* Every operation returns, besides its result and the successor state,
  a trace of `Event`s: the outward calls it issued, in program order.
  Temporal claims (capture-before-switch, cleanup-always, close/connect
  counts) are statements about these traces.
* Shell command lines are a finite inductive `ShellCmd` instead of raw
  strings (the literal strings contain shell metacharacters); each
  constructor's doc comment gives the exact source string.
-/

instance {ε α : Type} [DecidableEq ε] [DecidableEq α] :
    DecidableEq (Except ε α) := fun a b =>
  match a, b with
  | Except.error x, Except.error y =>
    if h : x = y then Decidable.isTrue (by rw [h])
    else Decidable.isFalse (by simp [h])
  | Except.error _, Except.ok _ => Decidable.isFalse (by simp)
  | Except.ok _, Except.error _ => Decidable.isFalse (by simp)
  | Except.ok x, Except.ok y =>
    if h : x = y then Decidable.isTrue (by rw [h])
    else Decidable.isFalse (by simp [h])

/-- Python's `str.strip()`: drop leading and trailing whitespace.
(Defined over the character list by structural recursion so that it
evaluates by kernel reduction; `String.trim` does not.) -/
def pyStrip (s : String) : String :=
  String.mk
    (((s.toList.dropWhile Char.isWhitespace).reverse.dropWhile
        Char.isWhitespace).reverse)

/-- `charsStartWith p s`: `p` is a leading segment of `s`. -/
def charsStartWith : List Char → List Char → Bool
  | [], _ => true
  | _ :: _, [] => false
  | p :: ps, c :: cs => p = c && charsStartWith ps cs

/-- `charsContain p s`: `p` occurs contiguously somewhere in `s`. -/
def charsContain (p : List Char) : List Char → Bool
  | [] => charsStartWith p []
  | c :: rest => charsStartWith p (c :: rest) || charsContain p rest

/-- The two transport kinds from `const.py`: `CONNECTION_USB = "usb"`,
`CONNECTION_WIFI = "wifi"`. -/
inductive ConnType where
  | usb
  | wifi
deriving DecidableEq

/-- Shell command lines issued by the coordinator, one constructor per
distinct source string.  The two `getprop ... tcp.port` commands are
included because the specification mentions them; the source never
issues them (no call site constructs those strings). -/
inductive ShellCmd where
  /-- `"echo test"` — the round-trip liveness probe
  (coordinator.py lines 85 and 189, button.py line 91). -/
  | echoTest
  /-- `"getprop ro.serialno"` (coordinator.py line 199). -/
  | getpropSerial
  /-- The wlan0 address pipeline
  (coordinator.py lines 206 and 269). -/
  | ipAddrWlan0
  /-- The eth0 fallback address pipeline
  (coordinator.py lines 213 and 273). -/
  | ipAddrEth0
  /-- The composite setprop/restart fallback of `async_enable_wifi_adb`
  (coordinator.py lines 292-296), parametrised by the port. -/
  | enableFallback (port : Nat)
  /-- `"pm install -r <remotePath>"` (coordinator.py line 343). -/
  | pmInstall (remotePath : String)
  /-- `"rm <remotePath>"` (coordinator.py line 346). -/
  | rmFile (remotePath : String)
  /-- `"getprop service.adb.tcp.port"` — mentioned by the spec,
  never issued by the code. -/
  | getpropServicePort
  /-- `"getprop persist.adb.tcp.port"` — mentioned by the spec,
  never issued by the code. -/
  | getpropPersistPort
  /-- An arbitrary user command passed to `async_run_command`. -/
  | user (cmd : String)
deriving DecidableEq

/-- One outward call issued by the coordinator, in program order. -/
inductive Event where
  /-- `self._device.shell(cmd)` was invoked. -/
  | shell (cmd : ShellCmd)
  /-- `self._device._service(b'tcpip', port)` was invoked
  (coordinator.py line 286). -/
  | service (port : Nat)
  /-- `self._device.push(localPath, remotePath)` was invoked
  (coordinator.py line 340). -/
  | push (localPath remotePath : String)
  /-- `self._device.close()` was invoked
  (coordinator.py lines 91 and 135). -/
  | close
  /-- A fresh device object was constructed and
  `self._device.connect(...)` invoked (coordinator.py lines 96-120). -/
  | connectAttempt
  /-- A raw `socket.connect_ex((ip, port))` reachability check was
  performed (coordinator.py lines 162-165 and 230-233). -/
  | sockCheck (ip : String) (port : Nat)
deriving DecidableEq

/-- The world the coordinator talks to.  Each field models one kind of
fallible outward call; `none` means the call raises. -/
structure Env where
  /-- Outcome of `device.connect(...)` on a freshly constructed device:
  `none` = the call raises (caught at coordinator.py line 123);
  `some b` = it returns and `device.available` is then `b`
  (coordinator.py line 122 returns `b`). -/
  connectResult : Option Bool
  /-- Outcome of `device.shell(c)`: `none` = raises, `some r` = returns
  the string `r`. -/
  shellResp : ShellCmd → Option String
  /-- Whether `device._service(b'tcpip', ...)` returns without raising
  (coordinator.py line 286). -/
  serviceOk : Bool
  /-- Whether `device.push(...)` returns without raising
  (coordinator.py line 340). -/
  pushOk : Bool
  /-- Whether `socket.connect_ex((ip, port))` returns 0, i.e. the raw
  TCP reachability check succeeds. -/
  tcpReach : String → Nat → Bool

/-- Construction-time configuration of the coordinator
(coordinator.py lines 48-51). -/
structure Config where
  connectionType : ConnType
  deviceSerial : Option String
  deviceIp : Option String
  adbPort : Nat
deriving DecidableEq

/-- Mutable coordinator state: the held device (`self._device`, where
`some b` is a device with `available = b`) and the cached WiFi endpoint
(`self._last_wifi_ip`, `self._last_wifi_port`).  Initial state:
`⟨none, none, 5555⟩` (coordinator.py lines 42-46,
`DEFAULT_ADB_PORT = 5555`). -/
structure CoordState where
  device : Option Bool
  lastWifiIp : Option String
  lastWifiPort : Nat
deriving DecidableEq

/-- The dict returned by one refresh cycle (coordinator.py
lines 174-180): keys `connected`, `serial`, `wifi_ip`,
`wifi_adb_enabled`, `adb_port`. -/
structure Snapshot where
  connected : Bool
  serial : Option String
  wifiIp : Option String
  wifiAdbEnabled : Bool
  adbPort : Nat
deriving DecidableEq

/-- Fresh-connect tail of `_connect` (coordinator.py lines 96-126):
construct a transport-specific device object and call `connect`.
On a raise, `self._device = None` and `False` is returned (lines
123-126); otherwise `self._device.available` is returned with the
device object left in place (line 122) — even when `available` is
false. -/
def freshConnect (env : Env) (s : CoordState) :
    Bool × CoordState × List Event :=
  match env.connectResult with
  | none => (false, { s with device := none }, [Event.connectAttempt])
  | some avail => (avail, { s with device := some avail }, [Event.connectAttempt])

/-- `_async_connect` / `_connect` (coordinator.py lines 74-128).  If a
device is held and `available`, probe it with `echo test`: on success
reuse it; on a raise, `close()` it, drop it and fall through to one
fresh connect.  A held but non-`available` device skips the probe block
entirely (line 82) and is overwritten by the fresh connect without a
close.  (The credential setup of lines 76-77 has no observable effect
here and is omitted.) -/
def asyncConnect (env : Env) (s : CoordState) :
    Bool × CoordState × List Event :=
  match s.device with
  | some true =>
    match env.shellResp ShellCmd.echoTest with
    | some _ => (true, s, [Event.shell ShellCmd.echoTest])
    | none =>
      let r := freshConnect env { s with device := none }
      (r.1, r.2.1, Event.shell ShellCmd.echoTest :: Event.close :: r.2.2)
  | _ => freshConnect env s

/-- `_wifi_probe_from_cache` (coordinator.py lines 150-169): the
degraded-mode snapshot built from the cached WiFi endpoint when the
connect attempt failed.  Python truthiness: a `None` or empty cached IP,
or a zero cached port, skips the socket check (line 159). -/
def wifiProbeFromCache (env : Env) (s : CoordState) :
    Snapshot × List Event :=
  let base : Snapshot :=
    { connected := false, serial := none, wifiIp := s.lastWifiIp,
      wifiAdbEnabled := false, adbPort := s.lastWifiPort }
  match s.lastWifiIp with
  | none => (base, [])
  | some ip =>
    if ip = "" ∨ s.lastWifiPort = 0 then (base, [])
    else ({ base with wifiAdbEnabled := env.tcpReach ip s.lastWifiPort },
          [Event.sockCheck ip s.lastWifiPort])

/-- The shared wlan0-then-eth0 IP lookup (coordinator.py lines 205-219
and, textually duplicated, lines 268-277): inside one try block, run
the wlan0 pipeline; if its stripped output is non-empty use it,
otherwise run the eth0 pipeline and use its stripped output if
non-empty; any raise aborts the whole block, leaving the IP unset. -/
def ipLookup (env : Env) : Option String × List Event :=
  match env.shellResp ShellCmd.ipAddrWlan0 with
  | none => (none, [Event.shell ShellCmd.ipAddrWlan0])
  | some r =>
    if pyStrip r ≠ "" then (some (pyStrip r), [Event.shell ShellCmd.ipAddrWlan0])
    else
      match env.shellResp ShellCmd.ipAddrEth0 with
      | none =>
        (none, [Event.shell ShellCmd.ipAddrWlan0, Event.shell ShellCmd.ipAddrEth0])
      | some r2 =>
        if pyStrip r2 ≠ "" then
          (some (pyStrip r2),
           [Event.shell ShellCmd.ipAddrWlan0, Event.shell ShellCmd.ipAddrEth0])
        else
          (none,
           [Event.shell ShellCmd.ipAddrWlan0, Event.shell ShellCmd.ipAddrEth0])

/-- `_get_data` (coordinator.py lines 173-245).  Starts from the
all-defaults dict; returns it early when no `available` device is held
(line 184) or when the `echo test` probe raises (lines 188-193, which
also drops the device reference without a close).  After a successful
probe: `connected = true`; serial from `getprop ro.serialno` with the
configured serial as fallback; WiFi IP via `ipLookup`, cached into
`lastWifiIp` when observed (lines 210, 217); `adb_port` is the cached
port (or 5555 when that is 0, line 224); `wifi_adb_enabled` is a raw
TCP reachability check against `(wifi_ip, port)` when an IP was found
(lines 227-239).  Every fallible call inside is caught locally, so the
function always returns a snapshot. -/
def getData (env : Env) (cfg : Config) (s : CoordState) :
    Snapshot × CoordState × List Event :=
  let data0 : Snapshot := ⟨false, none, none, false, 5555⟩
  match s.device with
  | none => (data0, s, [])
  | some false => (data0, s, [])
  | some true =>
    match env.shellResp ShellCmd.echoTest with
    | none => (data0, { s with device := none }, [Event.shell ShellCmd.echoTest])
    | some _ =>
      let serial : Option String :=
        match env.shellResp ShellCmd.getpropSerial with
        | none => cfg.deviceSerial
        | some r => if r = "" then cfg.deviceSerial else some (pyStrip r)
      let ipr := ipLookup env
      let wifiIp := ipr.1
      let s2 : CoordState :=
        match wifiIp with
        | some ip => { s with lastWifiIp := some ip }
        | none => s
      let portToCheck := if s.lastWifiPort = 0 then 5555 else s.lastWifiPort
      let sockPart : Bool × List Event :=
        match wifiIp with
        | some ip => (env.tcpReach ip portToCheck, [Event.sockCheck ip portToCheck])
        | none => (false, [])
      (⟨true, serial, wifiIp, sockPart.1, portToCheck⟩, s2,
       Event.shell ShellCmd.echoTest :: Event.shell ShellCmd.getpropSerial ::
         (ipr.2 ++ sockPart.2))

/-- `_async_update_data` (coordinator.py lines 142-250), the Refresh
operation.  When no device is held, one connect attempt is made; on its
failure the degraded `_wifi_probe_from_cache` snapshot is returned
(line 171) — for every configured transport.  Otherwise the `_get_data`
snapshot is returned.  The `UpdateFailed` wrapper of line 250 fires only
when `_get_data` propagates an exception; every fallible device call
inside `_get_data` is caught locally (see `getData`), so the model's
error branch is never taken and the result is always `.ok`. -/
def updateData (env : Env) (cfg : Config) (s : CoordState) :
    Except String Snapshot × CoordState × List Event :=
  match s.device with
  | none =>
    let c := asyncConnect env s
    if c.1 then
      let g := getData env cfg c.2.1
      (Except.ok g.1, g.2.1, c.2.2 ++ g.2.2)
    else
      let p := wifiProbeFromCache env c.2.1
      (Except.ok p.1, c.2.1, c.2.2 ++ p.2)
  | some _ =>
    let g := getData env cfg s
    (Except.ok g.1, g.2.1, g.2.2)

/-- The `_enable` body of `async_enable_wifi_adb` (coordinator.py lines
264-308), reached with a connected device: capture the IP first
(lines 267-277), then call the `tcpip` transport-switch service
(line 286); if that raises, issue the composite setprop/restart shell
fallback (lines 291-298, its own failure only logged); finally, when an
IP was captured, cache `(ip, port)` (lines 300-303) and return the IP. -/
def enableBody (env : Env) (s : CoordState) (port : Nat) :
    Option String × CoordState × List Event :=
  let cap := ipLookup env
  let tSwitch : List Event :=
    if env.serviceOk then [Event.service port]
    else [Event.service port, Event.shell (ShellCmd.enableFallback port)]
  let s2 : CoordState :=
    match cap.1 with
    | some v => if v = "" then s else { s with lastWifiIp := some v, lastWifiPort := port }
    | none => s
  (cap.1, s2, cap.2 ++ tSwitch)

/-- `async_enable_wifi_adb` (coordinator.py lines 252-310): when no
`available` device is held, one connect attempt; on its failure return
`None`; otherwise run the `_enable` body. -/
def enableWifiAdb (env : Env) (_cfg : Config) (s : CoordState) (port : Nat) :
    Option String × CoordState × List Event :=
  match s.device with
  | some true => enableBody env s port
  | _ =>
    let c := asyncConnect env s
    if c.1 then
      let b := enableBody env c.2.1 port
      (b.1, b.2.1, c.2.2 ++ b.2.2)
    else (none, c.2.1, c.2.2)

/-- `async_run_command` (coordinator.py lines 312-326): ensure a
connection (returning `None` when the single connect attempt fails),
then run the command, returning `None` when it raises.  It never
raises to its caller. -/
def runCommand (env : Env) (_cfg : Config) (s : CoordState) (cmd : ShellCmd) :
    Option String × CoordState × List Event :=
  match s.device with
  | some true => (env.shellResp cmd, s, [Event.shell cmd])
  | _ =>
    let c := asyncConnect env s
    if c.1 then (env.shellResp cmd, c.2.1, c.2.2 ++ [Event.shell cmd])
    else (none, c.2.1, c.2.2)

/-- The fixed temporary remote path of `async_install_apk`
(coordinator.py line 339). -/
def remoteApkPath : String := "/data/local/tmp/install.apk"

/-- Python's `"Success" in result`: `r` contains `"Success"` as a
substring. -/
def hasSuccessMarker (r : String) : Bool := charsContain "Success".toList r.toList

/-- The `_install` body of `async_install_apk` (coordinator.py lines
335-351): push the APK to the fixed remote path, run `pm install`,
run the `rm` cleanup, and report whether the install output contains
the `"Success"` marker.  Any raise jumps to the catch-all at line 349
and returns `False` — so a raising push or install skips every later
call, and in particular a raising install skips the cleanup. -/
def installBody (env : Env) (path : String) : Bool × List Event :=
  if env.pushOk then
    match env.shellResp (ShellCmd.pmInstall remoteApkPath) with
    | none =>
      (false, [Event.push path remoteApkPath,
               Event.shell (ShellCmd.pmInstall remoteApkPath)])
    | some r =>
      match env.shellResp (ShellCmd.rmFile remoteApkPath) with
      | none =>
        (false, [Event.push path remoteApkPath,
                 Event.shell (ShellCmd.pmInstall remoteApkPath),
                 Event.shell (ShellCmd.rmFile remoteApkPath)])
      | some _ =>
        (if r = "" then false else hasSuccessMarker r,
         [Event.push path remoteApkPath,
          Event.shell (ShellCmd.pmInstall remoteApkPath),
          Event.shell (ShellCmd.rmFile remoteApkPath)])
  else (false, [Event.push path remoteApkPath])

/-- `async_install_apk` (coordinator.py lines 328-353): ensure a
connection (returning `False` when the single connect attempt fails),
then run the `_install` body. -/
def installApk (env : Env) (_cfg : Config) (s : CoordState) (path : String) :
    Bool × CoordState × List Event :=
  match s.device with
  | some true =>
    let b := installBody env path
    (b.1, s, b.2)
  | _ =>
    let c := asyncConnect env s
    if c.1 then
      let b := installBody env path
      (b.1, c.2.1, c.2.2 ++ b.2)
    else (false, c.2.1, c.2.2)

/-- `async_disconnect` (coordinator.py lines 130-140): close the held
device if any (a raise from `close()` is swallowed) and drop the
reference. -/
def disconnect (s : CoordState) : CoordState × List Event :=
  match s.device with
  | some _ => ({ s with device := none }, [Event.close])
  | none => (s, [])

/-- `ReconnectButton.async_press` (button.py lines 85-99).  When a
device reference is held (Python truthiness of `self.coordinator._device`,
whatever its `available` flag), it calls `async_run_command("echo test")`
— which swallows every failure and returns `None` instead of raising —
and then returns.  The `except` branch of lines 94-96 is therefore
unreachable, and holding a device the press never disconnects.  With no
device held it disconnects (a no-op) and triggers a refresh, modelled
here as an immediate `updateData`. -/
def reconnectPress (env : Env) (cfg : Config) (s : CoordState) :
    CoordState × List Event :=
  match s.device with
  | some _ =>
    let r := runCommand env cfg s ShellCmd.echoTest
    (r.2.1, r.2.2)
  | none =>
    let d := disconnect s
    let u := updateData env cfg d.1
    (u.2.1, d.2 ++ u.2.2)

/-- One public coordinator operation, for stating invariants over
arbitrary operation sequences. -/
inductive Op where
  | refresh
  | enable (port : Nat)
  | run (cmd : ShellCmd)
  | install (path : String)
  | disc
deriving DecidableEq

/-- State reached after one public operation. -/
def applyOp (cfg : Config) (s : CoordState) : Env × Op → CoordState
  | (env, Op.refresh) => (updateData env cfg s).2.1
  | (env, Op.enable p) => (enableWifiAdb env cfg s p).2.1
  | (env, Op.run c) => (runCommand env cfg s c).2.1
  | (env, Op.install p) => (installApk env cfg s p).2.1
  | (_, Op.disc) => (disconnect s).1

/-- State reached after a sequence of public operations, each against
its own environment. -/
def runOps (cfg : Config) (steps : List (Env × Op)) (s : CoordState) :
    CoordState :=
  steps.foldl (applyOp cfg) s

/-- `e` is the transport-switch service call. -/
def isServiceEvent : Event → Bool
  | Event.service _ => true
  | _ => false

/-- `e` is the wlan0 IP-capture shell call. -/
def isWlanEvent : Event → Bool
  | Event.shell ShellCmd.ipAddrWlan0 => true
  | _ => false

/-- An environment in which every outward call fails (device fully
unreachable). -/
def envDown : Env :=
  { connectResult := none, shellResp := fun _ => none,
    serviceOk := false, pushOk := false, tcpReach := fun _ _ => false }

/-- Device unreachable over the primary transport, but raw TCP
reachability checks succeed. -/
def envDownReach : Env := { envDown with tcpReach := fun _ _ => true }

/-- The device responses of the specification's concrete scenario A,
with every raw TCP reachability check failing. -/
def envA0 : Env :=
  { connectResult := some true,
    shellResp := fun c =>
      match c with
      | ShellCmd.echoTest => some "test"
      | ShellCmd.getpropSerial => some "ABC123\n"
      | ShellCmd.ipAddrWlan0 => some "192.168.1.50\n"
      | ShellCmd.getpropServicePort => some "0"
      | ShellCmd.getpropPersistPort => some "5555"
      | _ => none,
    serviceOk := true, pushOk := true, tcpReach := fun _ _ => false }

/-- Scenario A with the raw TCP reachability check succeeding. -/
def envA : Env := { envA0 with tcpReach := fun _ _ => true }

/-- Scenario-D device responses: IP capture returns `10.0.0.5`, the
`tcpip` service call raises, the shell fallback succeeds. -/
def envEnableFb : Env :=
  { connectResult := some true,
    shellResp := fun c =>
      match c with
      | ShellCmd.echoTest => some "test"
      | ShellCmd.ipAddrWlan0 => some "10.0.0.5"
      | ShellCmd.enableFallback _ => some ""
      | _ => none,
    serviceOk := false, pushOk := true, tcpReach := fun _ _ => false }

/-- Push succeeds but the `pm install` shell call raises. -/
def envInstallRaise : Env :=
  { connectResult := some true,
    shellResp := fun c =>
      match c with
      | ShellCmd.echoTest => some "test"
      | ShellCmd.pmInstall _ => none
      | ShellCmd.rmFile _ => some ""
      | _ => none,
    serviceOk := true, pushOk := true, tcpReach := fun _ _ => false }

/-- A USB-configured coordinator (scenario A's configuration). -/
def cfgUsb : Config := ⟨ConnType.usb, some "ABC123", none, 5555⟩

/-- A TCP-configured coordinator. -/
def cfgTcp : Config := ⟨ConnType.wifi, none, some "192.168.1.50", 5555⟩

/-- Initial coordinator state. -/
def stInit : CoordState := ⟨none, none, 5555⟩

/-- A held, `available` session; no cached WiFi endpoint. -/
def stHeld : CoordState := ⟨some true, none, 5555⟩

/-- No session; cached WiFi endpoint `("192.168.1.50", 5555)`. -/
def stCached : CoordState := ⟨none, some "192.168.1.50", 5555⟩

/-! Helper lemmas shared across the claim theorems. -/

theorem pyStrip_serialA : pyStrip "ABC123\n" = "ABC123" := by decide

theorem pyStrip_ipA : pyStrip "192.168.1.50\n" = "192.168.1.50" := by decide

theorem pyStrip_ipD : pyStrip "10.0.0.5" = "10.0.0.5" := by decide

/-- The degraded-mode snapshot always reports a disconnected device with
no serial. -/
theorem wifiProbeFromCache_disconnected (env : Env) (s : CoordState) :
    (wifiProbeFromCache env s).1.connected = false ∧
    (wifiProbeFromCache env s).1.serial = none := by
  unfold wifiProbeFromCache
  rcases s.lastWifiIp with _ | ip
  · exact ⟨rfl, rfl⟩
  · by_cases h : ip = "" ∨ s.lastWifiPort = 0 <;> simp [h]

/-- `_connect` leaves the cached WiFi endpoint untouched. -/
theorem asyncConnect_lastWifi (env : Env) (s : CoordState) :
    (asyncConnect env s).2.1.lastWifiIp = s.lastWifiIp ∧
    (asyncConnect env s).2.1.lastWifiPort = s.lastWifiPort := by
  unfold asyncConnect freshConnect
  rcases s.device with _ | b
  · rcases env.connectResult with _ | a <;> exact ⟨rfl, rfl⟩
  · cases b
    · rcases env.connectResult with _ | a <;> exact ⟨rfl, rfl⟩
    · rcases env.shellResp ShellCmd.echoTest with _ | r
      · rcases env.connectResult with _ | a <;> exact ⟨rfl, rfl⟩
      · exact ⟨rfl, rfl⟩

/-! ### C1 -/

/-- C1 counterexample: with the device unreachable (`connect` raises)
and no cached WiFi endpoint, `Refresh` does not raise `UpdateFailed`;
it returns the all-defaults disconnected snapshot. -/
theorem C1_counterexample :
    stInit.device = none ∧ envDown.connectResult = none ∧
    stInit.lastWifiIp = none ∧
    (updateData envDown cfgUsb stInit).1 =
      Except.ok ⟨false, none, none, false, 5555⟩ := by
  refine ⟨rfl, rfl, rfl, ?_⟩
  rfl

/-- C1 amended: for every Refresh call in which the connect attempt
fails and no cached WiFi endpoint is present, `Refresh` returns the
all-defaults disconnected snapshot (connected `false`, no serial, no
WiFi IP, wireless ADB `false`, the cached port) instead of raising
`UpdateFailed`. -/
theorem C1_refresh_unreachable_no_cache (env : Env) (cfg : Config)
    (s : CoordState) (hd : s.device = none)
    (hc : env.connectResult = none) (hip : s.lastWifiIp = none) :
    (updateData env cfg s).1 =
      Except.ok ⟨false, none, none, false, s.lastWifiPort⟩ := by
  simp [updateData, asyncConnect, freshConnect, wifiProbeFromCache, hd, hc, hip]

theorem C1_witness :
    stInit.device = none ∧ envDown.connectResult = none ∧
    stInit.lastWifiIp = none ∧
    (updateData envDown cfgUsb stInit).1 =
      Except.ok ⟨false, none, none, false, stInit.lastWifiPort⟩ :=
  ⟨rfl, rfl, rfl, C1_refresh_unreachable_no_cache envDown cfgUsb stInit rfl rfl rfl⟩

/-! ### C2 -/

/-- C2 counterexample: with a held `available` session whose probe
raises, `Refresh` issues no `close()` at all (the claim demands exactly
one) and no connect attempt: the trace is just the probe. -/
theorem C2_counterexample :
    stHeld.device = some true ∧
    envDown.shellResp ShellCmd.echoTest = none ∧
    (updateData envDown cfgUsb stHeld).2.2 = [Event.shell ShellCmd.echoTest] ∧
    (updateData envDown cfgUsb stHeld).2.2.count Event.close = 0 := by
  refine ⟨rfl, rfl, by rfl, by decide⟩

/-- C2 amended: for every Refresh call in which a Session exists and
its round-trip probe fails, the stale Session is discarded without a
`close()` call and no new connect attempt is made within that same
Refresh call (so "at most one Connect" holds only vacuously);
reconnection is deferred to a later Refresh. -/
theorem C2_refresh_stale_probe_discards_silently (env : Env) (cfg : Config)
    (s : CoordState) (hd : s.device = some true)
    (hp : env.shellResp ShellCmd.echoTest = none) :
    (updateData env cfg s).2.2.count Event.close = 0 ∧
    (updateData env cfg s).2.2.count Event.connectAttempt = 0 ∧
    (updateData env cfg s).2.1.device = none := by
  simp [updateData, getData, hd, hp, List.count_cons]

theorem C2_witness :
    stHeld.device = some true ∧
    envDown.shellResp ShellCmd.echoTest = none ∧
    ((updateData envDown cfgUsb stHeld).2.2.count Event.close = 0 ∧
     (updateData envDown cfgUsb stHeld).2.2.count Event.connectAttempt = 0 ∧
     (updateData envDown cfgUsb stHeld).2.1.device = none) :=
  ⟨rfl, rfl, C2_refresh_stale_probe_discards_silently envDown cfgUsb stHeld rfl rfl⟩

/-! ### C3 -/

/-- C3 counterexample: under scenario A's device responses — including
`getprop service.adb.tcp.port` answering `0` and
`getprop persist.adb.tcp.port` answering `5555` — but with the raw TCP
reachability check failing, the snapshot reports
`wifiAdbEnabled = false`: the TCP-port system properties do not
determine the result (the code never reads them); the raw socket check
does. -/
theorem C3_counterexample :
    envA0.shellResp ShellCmd.getpropServicePort = some "0" ∧
    envA0.shellResp ShellCmd.getpropPersistPort = some "5555" ∧
    (updateData envA0 cfgUsb stHeld).1 ≠
      Except.ok ⟨true, some "ABC123", some "192.168.1.50", true, 5555⟩ ∧
    (updateData envA0 cfgUsb stHeld).1 =
      Except.ok ⟨true, some "ABC123", some "192.168.1.50", false, 5555⟩ := by
  refine ⟨rfl, rfl, by decide, by rfl⟩

/-- C3 amended: for a connected Refresh where the probe succeeds,
`getprop ro.serialno` answers `ABC123`, the wlan0 lookup answers
`192.168.1.50` and the raw TCP reachability check against
`(192.168.1.50, 5555)` succeeds, the snapshot is `{connected:true,
serial:"ABC123", wifiIp:"192.168.1.50", wifiAdbEnabled:true,
adbPort:5555}`; wireless-ADB status is determined by that raw TCP
check against the cached port, not by reading the runtime or persisted
TCP-port system properties, which Refresh never queries. -/
theorem C3_scenario_a_snapshot (env : Env) (cfg : Config) (s : CoordState)
    (pr : String) (hd : s.device = some true)
    (hp : env.shellResp ShellCmd.echoTest = some pr)
    (hs : env.shellResp ShellCmd.getpropSerial = some "ABC123\n")
    (hw : env.shellResp ShellCmd.ipAddrWlan0 = some "192.168.1.50\n")
    (hport : s.lastWifiPort = 5555)
    (hr : env.tcpReach "192.168.1.50" 5555 = true) :
    (updateData env cfg s).1 =
      Except.ok ⟨true, some "ABC123", some "192.168.1.50", true, 5555⟩ ∧
    Event.shell ShellCmd.getpropServicePort ∉ (updateData env cfg s).2.2 ∧
    Event.shell ShellCmd.getpropPersistPort ∉ (updateData env cfg s).2.2 := by
  simp [updateData, getData, ipLookup, hd, hp, hs, hw, hport, hr,
    pyStrip_serialA, pyStrip_ipA]

theorem C3_witness :
    stHeld.device = some true ∧
    envA.shellResp ShellCmd.echoTest = some "test" ∧
    envA.shellResp ShellCmd.getpropSerial = some "ABC123\n" ∧
    envA.shellResp ShellCmd.ipAddrWlan0 = some "192.168.1.50\n" ∧
    stHeld.lastWifiPort = 5555 ∧
    envA.tcpReach "192.168.1.50" 5555 = true ∧
    ((updateData envA cfgUsb stHeld).1 =
       Except.ok ⟨true, some "ABC123", some "192.168.1.50", true, 5555⟩ ∧
     Event.shell ShellCmd.getpropServicePort ∉ (updateData envA cfgUsb stHeld).2.2 ∧
     Event.shell ShellCmd.getpropPersistPort ∉ (updateData envA cfgUsb stHeld).2.2) :=
  ⟨rfl, rfl, rfl, rfl, rfl, rfl,
   C3_scenario_a_snapshot envA cfgUsb stHeld "test" rfl rfl rfl rfl rfl rfl⟩

/-! ### C4 -/

/-- C4 counterexample: a TCP-configured coordinator whose connect
attempt fails does take the degraded-mode fallback: the cached-endpoint
socket check is performed and its outcome is reported in the snapshot. -/
theorem C4_counterexample :
    cfgTcp.connectionType = ConnType.wifi ∧
    envDownReach.connectResult = none ∧
    stCached.device = none ∧
    Event.sockCheck "192.168.1.50" 5555 ∈
      (updateData envDownReach cfgTcp stCached).2.2 ∧
    (updateData envDownReach cfgTcp stCached).1 =
      Except.ok ⟨false, none, some "192.168.1.50", true, 5555⟩ := by
  refine ⟨rfl, rfl, rfl, by decide, by rfl⟩

/-- C4 amended: the degraded-mode fallback of Refresh (the lightweight
TCP reachability probe against the cached WiFi endpoint) is taken
whenever the connect attempt fails, for every configured transport —
the code never consults the transport kind on this path. -/
theorem C4_fallback_for_every_transport (env : Env) (cfg : Config)
    (s : CoordState) (hd : s.device = none)
    (hc : env.connectResult ≠ some true) :
    (updateData env cfg s).1 = Except.ok (wifiProbeFromCache env s).1 := by
  rcases hcr : env.connectResult with _ | avail
  · simp [updateData, asyncConnect, freshConnect, wifiProbeFromCache, hd, hcr]
  · cases avail
    · simp [updateData, asyncConnect, freshConnect, wifiProbeFromCache, hd, hcr]
    · exact absurd hcr hc

theorem C4_witness :
    stCached.device = none ∧
    envDownReach.connectResult ≠ some true ∧
    (updateData envDownReach cfgTcp stCached).1 =
      Except.ok (wifiProbeFromCache envDownReach stCached).1 :=
  ⟨rfl, by decide,
   C4_fallback_for_every_transport envDownReach cfgTcp stCached rfl (by decide)⟩

/-! ### C5 -/

/-- The `_enable` body's first outward call is always the wlan0 IP
capture. -/
theorem enableBody_head_is_capture (env : Env) (s : CoordState) (port : Nat) :
    ∃ t, (enableBody env s port).2.2 = Event.shell ShellCmd.ipAddrWlan0 :: t := by
  unfold enableBody ipLookup
  cases h1 : env.shellResp ShellCmd.ipAddrWlan0 with
  | none => exact ⟨_, rfl⟩
  | some r =>
    by_cases h2 : pyStrip r = ""
    · cases h3 : env.shellResp ShellCmd.ipAddrEth0 with
      | none => simp [h2, h3]
      | some r2 =>
        by_cases h4 : pyStrip r2 = "" <;> simp [h2, h3, h4]
    · simp [h2]

/-- C5 confirmed: in every execution of `EnableWirelessAdb` that
reaches the `tcpip` transport-switch request, the IP-capture shell
command is issued strictly before the switch-service request (the
capture command's index in the call trace is strictly smaller). -/
theorem C5_capture_before_switch (env : Env) (cfg : Config) (s : CoordState)
    (port : Nat)
    (h : (enableWifiAdb env cfg s port).2.2.any isServiceEvent = true) :
    (enableWifiAdb env cfg s port).2.2.findIdx isWlanEvent <
      (enableWifiAdb env cfg s port).2.2.findIdx isServiceEvent := by
  obtain ⟨t, ht⟩ := enableBody_head_is_capture env s port
  rcases hdev : s.device with _ | b
  · rcases hc : env.connectResult with _ | avail
    · exfalso
      simp [enableWifiAdb, asyncConnect, freshConnect, hdev, hc,
        isServiceEvent] at h
    · cases avail
      · exfalso
        simp [enableWifiAdb, asyncConnect, freshConnect, hdev, hc,
          isServiceEvent] at h
      · obtain ⟨t2, ht2⟩ := enableBody_head_is_capture env
          { s with device := some true } port
        simp [enableWifiAdb, asyncConnect, freshConnect, hdev, hc, ht2,
          List.findIdx_cons, isWlanEvent, isServiceEvent]
  · cases b
    · rcases hc : env.connectResult with _ | avail
      · exfalso
        simp [enableWifiAdb, asyncConnect, freshConnect, hdev, hc,
          isServiceEvent] at h
      · cases avail
        · exfalso
          simp [enableWifiAdb, asyncConnect, freshConnect, hdev, hc,
            isServiceEvent] at h
        · obtain ⟨t2, ht2⟩ := enableBody_head_is_capture env
            { s with device := some true } port
          simp [enableWifiAdb, asyncConnect, freshConnect, hdev, hc, ht2,
            List.findIdx_cons, isWlanEvent, isServiceEvent]
    · simp [enableWifiAdb, hdev, ht, List.findIdx_cons, isWlanEvent,
        isServiceEvent]

theorem C5_witness :
    (enableWifiAdb envA cfgUsb stHeld 5555).2.2.any isServiceEvent = true ∧
    (enableWifiAdb envA cfgUsb stHeld 5555).2.2.findIdx isWlanEvent <
      (enableWifiAdb envA cfgUsb stHeld 5555).2.2.findIdx isServiceEvent :=
  ⟨by decide, C5_capture_before_switch envA cfgUsb stHeld 5555 (by decide)⟩

/-! ### C6 -/

/-- C6 confirmed: for an `EnableWirelessAdb(5555)` call on a connected
device where the IP capture returns `10.0.0.5`, the primary `tcpip`
service call raises and the shell fallback command succeeds, the
operation returns `10.0.0.5`, the cached WiFi endpoint becomes
`("10.0.0.5", 5555)`, and the fallback command was issued. -/
theorem C6_captured_ip_survives_switch_failure (env : Env) (cfg : Config)
    (s : CoordState) (fb : String) (hd : s.device = some true)
    (hw : env.shellResp ShellCmd.ipAddrWlan0 = some "10.0.0.5")
    (hsvc : env.serviceOk = false)
    (_hfb : env.shellResp (ShellCmd.enableFallback 5555) = some fb) :
    (enableWifiAdb env cfg s 5555).1 = some "10.0.0.5" ∧
    (enableWifiAdb env cfg s 5555).2.1.lastWifiIp = some "10.0.0.5" ∧
    (enableWifiAdb env cfg s 5555).2.1.lastWifiPort = 5555 ∧
    Event.shell (ShellCmd.enableFallback 5555) ∈
      (enableWifiAdb env cfg s 5555).2.2 := by
  simp [enableWifiAdb, enableBody, ipLookup, hd, hw, hsvc, pyStrip_ipD]

theorem C6_witness :
    stHeld.device = some true ∧
    envEnableFb.shellResp ShellCmd.ipAddrWlan0 = some "10.0.0.5" ∧
    envEnableFb.serviceOk = false ∧
    envEnableFb.shellResp (ShellCmd.enableFallback 5555) = some "" ∧
    ((enableWifiAdb envEnableFb cfgUsb stHeld 5555).1 = some "10.0.0.5" ∧
     (enableWifiAdb envEnableFb cfgUsb stHeld 5555).2.1.lastWifiIp =
       some "10.0.0.5" ∧
     (enableWifiAdb envEnableFb cfgUsb stHeld 5555).2.1.lastWifiPort = 5555 ∧
     Event.shell (ShellCmd.enableFallback 5555) ∈
       (enableWifiAdb envEnableFb cfgUsb stHeld 5555).2.2) :=
  ⟨rfl, rfl, rfl, rfl,
   C6_captured_ip_survives_switch_failure envEnableFb cfgUsb stHeld "" rfl rfl
     rfl rfl⟩

/-! ### C7 -/

/-- C7 counterexample: push succeeds (the file is pushed to the device)
but the `pm install` shell call raises; the remote cleanup command is
never issued: `InstallPackage`'s catch-all skips it. -/
theorem C7_counterexample :
    envInstallRaise.pushOk = true ∧
    envInstallRaise.shellResp (ShellCmd.pmInstall remoteApkPath) = none ∧
    Event.push "/tmp/app.apk" remoteApkPath ∈
      (installApk envInstallRaise cfgUsb stHeld "/tmp/app.apk").2.2 ∧
    Event.shell (ShellCmd.rmFile remoteApkPath) ∉
      (installApk envInstallRaise cfgUsb stHeld "/tmp/app.apk").2.2 := by
  refine ⟨rfl, rfl, by decide, by decide⟩

/-- C7 amended: for an `InstallPackage` call that pushes the file, the
remote cleanup command is issued whenever the install command returns a
response — including a response lacking the success marker — but when
the install shell call itself raises, the cleanup command is not
issued. -/
theorem C7_cleanup_iff_install_returns (env : Env) (cfg : Config)
    (s : CoordState) (path : String) (hd : s.device = some true)
    (hp : env.pushOk = true) :
    ((env.shellResp (ShellCmd.pmInstall remoteApkPath)).isSome →
      Event.shell (ShellCmd.rmFile remoteApkPath) ∈
        (installApk env cfg s path).2.2) ∧
    (env.shellResp (ShellCmd.pmInstall remoteApkPath) = none →
      Event.shell (ShellCmd.rmFile remoteApkPath) ∉
        (installApk env cfg s path).2.2) := by
  cases hi : env.shellResp (ShellCmd.pmInstall remoteApkPath) with
  | none => simp [installApk, installBody, hd, hp, hi]
  | some r =>
    cases hr : env.shellResp (ShellCmd.rmFile remoteApkPath) with
    | none => simp [installApk, installBody, hd, hp, hi, hr]
    | some r2 => simp [installApk, installBody, hd, hp, hi, hr]

theorem C7_witness :
    stHeld.device = some true ∧ envEnableFb.pushOk = true ∧
    (((envEnableFb.shellResp (ShellCmd.pmInstall remoteApkPath)).isSome →
       Event.shell (ShellCmd.rmFile remoteApkPath) ∈
         (installApk envEnableFb cfgUsb stHeld "/tmp/app.apk").2.2) ∧
     (envEnableFb.shellResp (ShellCmd.pmInstall remoteApkPath) = none →
       Event.shell (ShellCmd.rmFile remoteApkPath) ∉
         (installApk envEnableFb cfgUsb stHeld "/tmp/app.apk").2.2)) :=
  ⟨rfl, rfl,
   C7_cleanup_iff_install_returns envEnableFb cfgUsb stHeld "/tmp/app.apk"
     rfl rfl⟩

/-! ### C8 -/

/-- `_get_data` either leaves `lastWifiIp` unchanged or overwrites it
with an observed IP. -/
theorem getData_lastWifiIp (env : Env) (cfg : Config) (s : CoordState) :
    (getData env cfg s).2.1.lastWifiIp = s.lastWifiIp ∨
    ∃ ip, (getData env cfg s).2.1.lastWifiIp = some ip := by
  rcases hdev : s.device with _ | b
  · left; simp [getData, hdev]
  · cases b
    · left; simp [getData, hdev]
    · rcases hp : env.shellResp ShellCmd.echoTest with _ | r
      · left; simp [getData, hdev, hp]
      · rcases hip : (ipLookup env).1 with _ | ip
        · left; simp [getData, hdev, hp, hip]
        · right; exact ⟨ip, by simp [getData, hdev, hp, hip]⟩

/-- The `_enable` body either leaves `lastWifiIp` unchanged or
overwrites it with the captured IP. -/
theorem enableBody_lastWifiIp (env : Env) (s : CoordState) (port : Nat) :
    (enableBody env s port).2.1.lastWifiIp = s.lastWifiIp ∨
    ∃ ip, (enableBody env s port).2.1.lastWifiIp = some ip := by
  rcases hip : (ipLookup env).1 with _ | v
  · left; simp [enableBody, hip]
  · by_cases hv : v = ""
    · left; simp [enableBody, hip, hv]
    · right; exact ⟨v, by simp [enableBody, hip, hv]⟩

/-- Refresh either leaves `lastWifiIp` unchanged or overwrites it with
an observed IP. -/
theorem updateData_lastWifiIp (env : Env) (cfg : Config) (s : CoordState) :
    (updateData env cfg s).2.1.lastWifiIp = s.lastWifiIp ∨
    ∃ ip, (updateData env cfg s).2.1.lastWifiIp = some ip := by
  rcases hdev : s.device with _ | b
  · by_cases hc : (asyncConnect env s).1 = true
    · have e : (updateData env cfg s).2.1 =
          (getData env cfg (asyncConnect env s).2.1).2.1 := by
        simp [updateData, hdev, hc]
      rw [e]
      rcases getData_lastWifiIp env cfg (asyncConnect env s).2.1 with h1 | ⟨ip, h1⟩
      · left; rw [h1, (asyncConnect_lastWifi env s).1]
      · right; exact ⟨ip, h1⟩
    · have e : (updateData env cfg s).2.1 = (asyncConnect env s).2.1 := by
        simp [updateData, hdev, hc]
      left; rw [e, (asyncConnect_lastWifi env s).1]
  · have e : (updateData env cfg s).2.1 = (getData env cfg s).2.1 := by
      simp [updateData, hdev]
    rw [e]
    exact getData_lastWifiIp env cfg s

/-- `EnableWirelessAdb` either leaves `lastWifiIp` unchanged or
overwrites it with the captured IP. -/
theorem enableWifiAdb_lastWifiIp (env : Env) (cfg : Config) (s : CoordState)
    (port : Nat) :
    (enableWifiAdb env cfg s port).2.1.lastWifiIp = s.lastWifiIp ∨
    ∃ ip, (enableWifiAdb env cfg s port).2.1.lastWifiIp = some ip := by
  rcases hdev : s.device with _ | b
  · by_cases hc : (asyncConnect env s).1 = true
    · have e : (enableWifiAdb env cfg s port).2.1 =
          (enableBody env (asyncConnect env s).2.1 port).2.1 := by
        simp [enableWifiAdb, hdev, hc]
      rw [e]
      rcases enableBody_lastWifiIp env (asyncConnect env s).2.1 port with
        h1 | ⟨ip, h1⟩
      · left; rw [h1, (asyncConnect_lastWifi env s).1]
      · right; exact ⟨ip, h1⟩
    · have e : (enableWifiAdb env cfg s port).2.1 = (asyncConnect env s).2.1 := by
        simp [enableWifiAdb, hdev, hc]
      left; rw [e, (asyncConnect_lastWifi env s).1]
  · cases b
    · by_cases hc : (asyncConnect env s).1 = true
      · have e : (enableWifiAdb env cfg s port).2.1 =
            (enableBody env (asyncConnect env s).2.1 port).2.1 := by
          simp [enableWifiAdb, hdev, hc]
        rw [e]
        rcases enableBody_lastWifiIp env (asyncConnect env s).2.1 port with
          h1 | ⟨ip, h1⟩
        · left; rw [h1, (asyncConnect_lastWifi env s).1]
        · right; exact ⟨ip, h1⟩
      · have e : (enableWifiAdb env cfg s port).2.1 =
            (asyncConnect env s).2.1 := by
          simp [enableWifiAdb, hdev, hc]
        left; rw [e, (asyncConnect_lastWifi env s).1]
    · have e : (enableWifiAdb env cfg s port).2.1 =
          (enableBody env s port).2.1 := by
        simp [enableWifiAdb, hdev]
      rw [e]
      exact enableBody_lastWifiIp env s port

/-- `RunCommand` never touches `lastWifiIp`. -/
theorem runCommand_lastWifiIp (env : Env) (cfg : Config) (s : CoordState)
    (cmd : ShellCmd) :
    (runCommand env cfg s cmd).2.1.lastWifiIp = s.lastWifiIp := by
  rcases hdev : s.device with _ | b
  · by_cases hc : (asyncConnect env s).1 = true <;>
      simp [runCommand, hdev, hc, (asyncConnect_lastWifi env s).1]
  · cases b
    · by_cases hc : (asyncConnect env s).1 = true <;>
        simp [runCommand, hdev, hc, (asyncConnect_lastWifi env s).1]
    · simp [runCommand, hdev]

/-- `InstallPackage` never touches `lastWifiIp`. -/
theorem installApk_lastWifiIp (env : Env) (cfg : Config) (s : CoordState)
    (path : String) :
    (installApk env cfg s path).2.1.lastWifiIp = s.lastWifiIp := by
  rcases hdev : s.device with _ | b
  · by_cases hc : (asyncConnect env s).1 = true <;>
      simp [installApk, hdev, hc, (asyncConnect_lastWifi env s).1]
  · cases b
    · by_cases hc : (asyncConnect env s).1 = true <;>
        simp [installApk, hdev, hc, (asyncConnect_lastWifi env s).1]
    · simp [installApk, hdev]

/-- One public operation either leaves `lastWifiIp` unchanged or
overwrites it with an observed non-null IP — it never clears it. -/
theorem applyOp_lastWifiIp (cfg : Config) (s : CoordState) (st : Env × Op) :
    (applyOp cfg s st).lastWifiIp = s.lastWifiIp ∨
    ∃ ip, (applyOp cfg s st).lastWifiIp = some ip := by
  rcases st with ⟨env, op⟩
  cases op with
  | refresh => exact updateData_lastWifiIp env cfg s
  | enable p => exact enableWifiAdb_lastWifiIp env cfg s p
  | run c => left; exact runCommand_lastWifiIp env cfg s c
  | install p => left; exact installApk_lastWifiIp env cfg s p
  | disc =>
    left
    rcases hdev : s.device with _ | b <;> simp [applyOp, disconnect, hdev]

/-- C8 confirmed: across every sequence of public coordinator
operations, once `lastWifiIp` has been set to a non-null value it is
never cleared back to null — each step either preserves it or
overwrites it with another observed non-null IP. -/
theorem C8_lastWifiIp_never_cleared (cfg : Config) (steps : List (Env × Op))
    (s : CoordState) (v : String) (h : s.lastWifiIp = some v) :
    ∃ w, (runOps cfg steps s).lastWifiIp = some w := by
  induction steps generalizing s v with
  | nil => exact ⟨v, h⟩
  | cons st rest ih =>
    have hstep : runOps cfg (st :: rest) s = runOps cfg rest (applyOp cfg s st) :=
      rfl
    rw [hstep]
    rcases applyOp_lastWifiIp cfg s st with h1 | ⟨ip, h1⟩
    · exact ih (applyOp cfg s st) v (by rw [h1, h])
    · exact ih (applyOp cfg s st) ip h1

theorem C8_witness :
    stCached.lastWifiIp = some "192.168.1.50" ∧
    ∃ w, (runOps cfgUsb
        [(envDown, Op.refresh), (envDown, Op.run ShellCmd.echoTest),
         (envDown, Op.disc)] stCached).lastWifiIp = some w :=
  ⟨rfl,
   C8_lastWifiIp_never_cleared cfgUsb
     [(envDown, Op.refresh), (envDown, Op.run ShellCmd.echoTest),
      (envDown, Op.disc)] stCached "192.168.1.50" rfl⟩

/-! ### C9 -/

/-- C9 (code bug): with a held session whose liveness probe fails
(`echo test` raises), the Reconnect button press issues only the probe
and returns — no `close()`, no connect attempt, the stale session left
in place — because `async_run_command` swallows the failure and returns
`None`, making the `except`-and-reconnect branch of
`ReconnectButton.async_press` (button.py lines 94-96, whose comments
document the intent to reconnect on a broken connection) unreachable. -/
theorem C9_reconnect_press_ignores_failed_probe :
    envDown.shellResp ShellCmd.echoTest = none ∧
    reconnectPress envDown cfgUsb stHeld =
      (stHeld, [Event.shell ShellCmd.echoTest]) ∧
    Event.close ∉ (reconnectPress envDown cfgUsb stHeld).2 ∧
    Event.connectAttempt ∉ (reconnectPress envDown cfgUsb stHeld).2 := by
  refine ⟨rfl, by rfl, by decide, by decide⟩

/-! ### C10 -/

/-- `_get_data`: connectivity in the snapshot requires a held
`available` device whose probe answered, and the probe was issued; a
raising probe (or no usable device) yields a disconnected snapshot with
no serial. -/
theorem getData_connected_iff_probe (env : Env) (cfg : Config)
    (s : CoordState) :
    ((getData env cfg s).1.connected = true →
      s.device = some true ∧ (env.shellResp ShellCmd.echoTest).isSome ∧
      Event.shell ShellCmd.echoTest ∈ (getData env cfg s).2.2) ∧
    (env.shellResp ShellCmd.echoTest = none →
      (getData env cfg s).1.connected = false ∧
      (getData env cfg s).1.serial = none) := by
  rcases hdev : s.device with _ | b
  · simp [getData, hdev]
  · cases b
    · simp [getData, hdev]
    · rcases hp : env.shellResp ShellCmd.echoTest with _ | r
      · simp [getData, hdev, hp]
      · simp [getData, hdev, hp]

/-- C10 confirmed: a Refresh snapshot reports `connected = true` only
when the round-trip `echo test` probe was issued during that same
Refresh call and answered; on the connect-failure path and after a
raising in-call probe the snapshot reports `connected = false` and a
null serial. -/
theorem C10_connected_only_after_probe (env : Env) (cfg : Config)
    (s : CoordState) (snap : Snapshot)
    (h : (updateData env cfg s).1 = Except.ok snap) :
    (snap.connected = true →
      (env.shellResp ShellCmd.echoTest).isSome ∧
      Event.shell ShellCmd.echoTest ∈ (updateData env cfg s).2.2) ∧
    (env.shellResp ShellCmd.echoTest = none →
      snap.connected = false ∧ snap.serial = none) ∧
    (s.device = none → env.connectResult ≠ some true →
      snap.connected = false ∧ snap.serial = none) := by
  rcases hdev : s.device with _ | b
  · have hfc : (asyncConnect env s).1 = true ↔ env.connectResult = some true := by
      rcases hcr : env.connectResult with _ | a
      · simp [asyncConnect, freshConnect, hdev, hcr]
      · cases a <;> simp [asyncConnect, freshConnect, hdev, hcr]
    by_cases hc : (asyncConnect env s).1 = true
    · have hsnap : (getData env cfg (asyncConnect env s).2.1).1 = snap := by
        have e : (updateData env cfg s).1 =
            Except.ok (getData env cfg (asyncConnect env s).2.1).1 := by
          simp [updateData, hdev, hc]
        rw [e] at h
        exact Except.ok.inj h
      have htr : (updateData env cfg s).2.2 =
          (asyncConnect env s).2.2 ++
            (getData env cfg (asyncConnect env s).2.1).2.2 := by
        simp [updateData, hdev, hc]
      have hg := getData_connected_iff_probe env cfg (asyncConnect env s).2.1
      refine ⟨?_, ?_, ?_⟩
      · intro hcon
        rcases hg.1 (by rw [hsnap]; exact hcon) with ⟨_, hps, hmem⟩
        exact ⟨hps, by rw [htr]; exact List.mem_append_right _ hmem⟩
      · intro hpn
        rcases hg.2 hpn with ⟨h1, h2⟩
        rw [hsnap] at h1 h2
        exact ⟨h1, h2⟩
      · intro _ hcr
        exact absurd (hfc.mp hc) hcr
    · have hsnap : (wifiProbeFromCache env (asyncConnect env s).2.1).1 = snap := by
        have e : (updateData env cfg s).1 =
            Except.ok (wifiProbeFromCache env (asyncConnect env s).2.1).1 := by
          simp [updateData, hdev, hc]
        rw [e] at h
        exact Except.ok.inj h
      have hw := wifiProbeFromCache_disconnected env (asyncConnect env s).2.1
      rcases hw with ⟨h1, h2⟩
      rw [hsnap] at h1 h2
      refine ⟨?_, fun _ => ⟨h1, h2⟩, fun _ _ => ⟨h1, h2⟩⟩
      intro hcon
      rw [h1] at hcon
      cases hcon
  · have hsnap : (getData env cfg s).1 = snap := by
      have e : (updateData env cfg s).1 = Except.ok (getData env cfg s).1 := by
        simp [updateData, hdev]
      rw [e] at h
      exact Except.ok.inj h
    have htr : (updateData env cfg s).2.2 = (getData env cfg s).2.2 := by
      simp [updateData, hdev]
    have hg := getData_connected_iff_probe env cfg s
    refine ⟨?_, ?_, ?_⟩
    · intro hcon
      rcases hg.1 (by rw [hsnap]; exact hcon) with ⟨_, hps, hmem⟩
      exact ⟨hps, by rw [htr]; exact hmem⟩
    · intro hpn
      rcases hg.2 hpn with ⟨h1, h2⟩
      rw [hsnap] at h1 h2
      exact ⟨h1, h2⟩
    · intro hnone _
      exact Option.noConfusion hnone

theorem C10_witness :
    (updateData envA cfgUsb stHeld).1 =
      Except.ok ⟨true, some "ABC123", some "192.168.1.50", true, 5555⟩ ∧
    ((⟨true, some "ABC123", some "192.168.1.50", true, 5555⟩ :
        Snapshot).connected = true →
      (envA.shellResp ShellCmd.echoTest).isSome ∧
      Event.shell ShellCmd.echoTest ∈ (updateData envA cfgUsb stHeld).2.2) :=
  ⟨by rfl,
   (C10_connected_only_after_probe envA cfgUsb stHeld
      ⟨true, some "ABC123", some "192.168.1.50", true, 5555⟩ (by rfl)).1⟩
